import Mathlib

/-!
Verification of the two orchestration scripts in this repository:
`06_gpu_and_ml/dreambooth/dreambooth_app_no_lora.py` and
`06_gpu_and_ml/protein-folding/boltz1.py`, via a shallow embedding of their
data transformations into Lean.  Python integers become `Nat`/`Int`, Python
strings become `String`, fallible code returns `Except`, side effects
(subprocess invocations, volume commits, prints, file writes) are made
explicit as returned values or event lists, and external processes are
abstracted by an exit-status oracle supplied as a parameter.
-/

/-! ## Decimal rendering of Python integers

Python renders an `int` inside an f-string as its decimal digit string.
`natDigitsAux` is fuel-structured so that the kernel can evaluate it. -/

/-- The character for decimal digit `d` (`0 ≤ d ≤ 9`): code point `48 + d`. -/
def digitChar (d : Nat) : Char := Char.ofNat (48 + d)

/-- Decimal digits of `n`, most significant first; `fuel` bounds recursion depth. -/
def natDigitsAux : Nat → Nat → List Char
  | 0, _ => []
  | fuel + 1, n =>
    if n < 10 then [digitChar n]
    else natDigitsAux fuel (n / 10) ++ [digitChar (n % 10)]

/-- Decimal digits of `n`, most significant first (`fuel := n + 1` always suffices). -/
def natDigits (n : Nat) : List Char := natDigitsAux (n + 1) n

/-- Embedding of Python `str(n)` for a non-negative int `n`. -/
def natRepr (n : Nat) : String := String.mk (natDigits n)

/-- Numeric value of a digit character. -/
def digitVal (c : Char) : Nat := c.toNat - 48

/-- Decimal value of a digit string (left fold, most significant first). -/
def digitsVal (l : List Char) : Nat := l.foldl (fun a c => 10 * a + digitVal c) 0

/-- The underscore character, the separator used in sweep directory names. -/
def underscoreChar : Char := Char.ofNat 95

/-! ## `dreambooth_app_no_lora.py`: the subprocess wrapper `_exec_subprocess`

The wrapper streams the child's output and then checks the exit status with
`if exitcode := process.wait() != 0:`.  The walrus operator binds looser than
`!=`, so `exitcode` is the *boolean* `process.wait() != 0`, and that boolean
(numeric value 1 when true) is what `CalledProcessError` receives as its
return code.  The embedding reproduces this binding structure exactly. -/

/-- Embedding of Python's `subprocess.CalledProcessError` as raised by
`_exec_subprocess`: the stored return code (as a Python numeric value) and the
command string it is given (`"\n".join(cmd)` in the source). -/
structure CalledProcessErr where
  returncode : Int
  cmd : String
deriving DecidableEq, Repr

/-- Numeric value of a Python `bool` (`True == 1`, `False == 0`). -/
def pyBoolInt (b : Bool) : Int := if b then 1 else 0

/-- Embedding of `_exec_subprocess` (dreambooth_app_no_lora.py lines 354-367):
`status` is the child's exit status as returned by `process.wait()`.  The
source line `if exitcode := process.wait() != 0:` makes `exitcode` the boolean
`status != 0`; on a truthy value it raises
`CalledProcessError(exitcode, "\n".join(cmd))`. -/
def execSubprocess (cmd : List String) (status : Int) : Except CalledProcessErr Unit :=
  let exitcode : Bool := status != 0
  if exitcode then
    Except.error { returncode := pyBoolInt exitcode, cmd := String.intercalate "\n" cmd }
  else
    Except.ok ()

/-! ## Sweep configuration generation -/

/-- `MODEL_DIR` from the source (line 161). -/
def MODEL_DIR : String := "/model"

/-- Module-level flag `USE_WANDB` (line 222). -/
def USE_WANDB : Bool := true

/-- Embedding of the `SweepConfig` dataclass fields that
`generate_sweep_configs` reads: the two sweep lists plus the scalar fields
copied into every generated record.  (The unused float field
`learning_rate` is not read by the generator and is omitted.) -/
structure SweepConfig where
  train_steps : List Nat
  ranks : List Nat
  model_name : String
  instance_prompt : String
  dataset_name : String
  caption_column : String
  resolution : Nat
  train_batch_size : Nat
  gradient_accumulation_steps : Nat
  lr_scheduler : String
  lr_warmup_steps : Nat
  checkpointing_steps : Nat
  seed : Nat
deriving DecidableEq, Repr

/-- A generated sweep configuration record: the dict literal built inside
`generate_sweep_configs` (lines 308-326), with `output_dir` stored in its
string rendering (`str(Path(MODEL_DIR) / f"steps_{steps}_rank_{rank}")`). -/
structure SweepRecord where
  max_train_steps : Nat
  rank : Nat
  model_name : String
  instance_prompt : String
  dataset_name : String
  caption_column : String
  resolution : Nat
  train_batch_size : Nat
  gradient_accumulation_steps : Nat
  lr_scheduler : String
  lr_warmup_steps : Nat
  checkpointing_steps : Nat
  seed : Nat
  output_dir : String
deriving DecidableEq, Repr

/-- The f-string `f"steps_{steps}_rank_{rank}"` (line 323). -/
def sweepDirName (steps rank : Nat) : String :=
  "steps_" ++ natRepr steps ++ "_rank_" ++ natRepr rank

/-- Rendering of `Path(MODEL_DIR) / f"steps_{steps}_rank_{rank}"` (line 323). -/
def sweepOutputDir (steps rank : Nat) : String :=
  MODEL_DIR ++ "/" ++ sweepDirName steps rank

/-- The record built for one `(steps, rank)` combination (lines 309-324). -/
def mkSweepRecord (sc : SweepConfig) (steps rank : Nat) : SweepRecord :=
  { max_train_steps := steps
    rank := rank
    model_name := sc.model_name
    instance_prompt := sc.instance_prompt
    dataset_name := sc.dataset_name
    caption_column := sc.caption_column
    resolution := sc.resolution
    train_batch_size := sc.train_batch_size
    gradient_accumulation_steps := sc.gradient_accumulation_steps
    lr_scheduler := sc.lr_scheduler
    lr_warmup_steps := sc.lr_warmup_steps
    checkpointing_steps := sc.checkpointing_steps
    seed := sc.seed
    output_dir := sweepOutputDir steps rank }

/-- Embedding of `generate_sweep_configs` (lines 301-326):
`itertools.product(train_steps, ranks)` enumerated in row-major order, one
record per combination. -/
def generate_sweep_configs (sc : SweepConfig) : List SweepRecord :=
  sc.train_steps.flatMap fun steps =>
    sc.ranks.map fun rank => mkSweepRecord sc steps rank

/-- The `SweepConfig()` dataclass instance with the defaults from the source
(`SweepConfig` inheriting `TrainConfig` inheriting `SharedConfig`). -/
def defaultSweepConfig : SweepConfig :=
  { train_steps := [2000, 3000, 4000]
    ranks := [8]
    model_name := "black-forest-labs/FLUX.1-dev"
    instance_prompt := "an HCON, in the style of TOK"
    dataset_name := "yirenlu/heroicons-subset-25-images"
    caption_column := "text"
    resolution := 512
    train_batch_size := 1
    gradient_accumulation_steps := 1
    lr_scheduler := "constant"
    lr_warmup_steps := 0
    checkpointing_steps := 1000
    seed := 0 }

/-! ## The training step `train` -/

/-- The command line `train` builds for the training subprocess
(lines 371-403), including the `--report_to=wandb` suffix guarded by
`USE_WANDB`. -/
def trainCmd (config : SweepRecord) : List String :=
  ["accelerate",
   "launch",
   "examples/dreambooth/train_dreambooth_flux.py",
   "--mixed_precision=bf16",
   "--pretrained_model_name_or_path=" ++ config.model_name,
   "--dataset_name=" ++ config.dataset_name,
   "--caption_column=" ++ config.caption_column,
   "--output_dir=" ++ config.output_dir,
   "--instance_prompt=" ++ config.instance_prompt,
   "--resolution=" ++ natRepr config.resolution,
   "--train_batch_size=" ++ natRepr config.train_batch_size,
   "--gradient_accumulation_steps=" ++ natRepr config.gradient_accumulation_steps,
   "--optimizer=\x27prodigy\x27",
   "--learning_rate=1.",
   "--lr_scheduler=" ++ config.lr_scheduler,
   "--lr_warmup_steps=" ++ natRepr config.lr_warmup_steps,
   "--max_train_steps=" ++ natRepr config.max_train_steps,
   "--checkpointing_steps=" ++ natRepr config.checkpointing_steps,
   "--seed=" ++ natRepr config.seed]
  ++ (if USE_WANDB then ["--report_to=wandb"] else [])

/-- Observable side effects of `train`, in order of occurrence. -/
inductive TrainEvent where
  | subproc (cmd : List String)
  | volumeCommit
deriving DecidableEq, Repr

/-- Embedding of `train` (lines 343-408): run the training subprocess via
`_exec_subprocess`; on success commit the volume and return the configuration
record; on failure the `CalledProcessError` propagates.  `status` is the exit
status of the training subprocess. -/
def train (config : SweepRecord) (status : Int) :
    List TrainEvent × Except CalledProcessErr SweepRecord :=
  match execSubprocess (trainCmd config) status with
  | Except.error e => ([TrainEvent.subproc (trainCmd config)], Except.error e)
  | Except.ok _ =>
      ([TrainEvent.subproc (trainCmd config), TrainEvent.volumeCommit], Except.ok config)

/-! ## The two re-derivations of the artifact directory name -/

/-- The directory name the sweep driver `run` re-derives for evaluation:
`f"steps_{config['max_train_steps']}_rank_{config['rank']}"` (line 663). -/
def evalLookupDir (config : SweepRecord) : String :=
  "steps_" ++ natRepr config.max_train_steps ++ "_rank_" ++ natRepr config.rank

/-- The path `Model.load_model` loads weights from:
`f"{MODEL_DIR}/{self.hyperparameter_model_dir}"` (line 461). -/
def modelLoadPath (hyperparameter_model_dir : String) : String :=
  MODEL_DIR ++ "/" ++ hyperparameter_model_dir

/-! ## The web UI inference handler `go` -/

/-- Embedding of `AppConfig` (inheriting `SharedConfig`) with the fields the
web handler reads.  (The float field `guidance_scale` is never read by the
handler and is omitted.) -/
structure AppConfig where
  instance_name : String := "Heroicon"
  class_name : String := "style"
  model_name : String := "black-forest-labs/FLUX.1-dev"
  num_inference_steps : Nat := 25
deriving DecidableEq, Repr

/-- `config = AppConfig()` (line 554). -/
def appConfig : AppConfig := {}

/-- Embedding of Python `str.title()` for the ASCII strings used here:
the first letter of each alphabetic run is upper-cased, the rest lower-cased. -/
def pyTitleAux : List Char → Bool → List Char
  | [], _ => []
  | c :: rest, prevAlpha =>
    (if c.isAlpha then (if prevAlpha then c.toLower else c.toUpper) else c)
      :: pyTitleAux rest c.isAlpha

/-- Embedding of Python `str.title()`. -/
def pyTitle (s : String) : String := String.mk (pyTitleAux s.data false)

/-- `instance_phrase = f"{config.instance_name} the {config.class_name}"` (line 556). -/
def instance_phrase : String := appConfig.instance_name ++ " the " ++ appConfig.class_name

/-- The `example_prompts` list built inside `fastapi_app` (lines 558-564). -/
def example_prompts : List String :=
  [instance_phrase,
   "a painting of " ++ pyTitle instance_phrase ++ " With A Pearl Earring, by Vermeer",
   "oil painting of " ++ instance_phrase ++ " flying through space as an astronaut",
   "a painting of " ++ instance_phrase ++ " in cyberpunk city. character design by cory loftis. volumetric light, detailed, rendered in octane",
   "drawing of " ++ instance_phrase ++ " high quality, cartoon, path traced, by studio ghibli and don bluth"]

/-- Embedding of the handler `go` (lines 547-551): an empty prompt is replaced
by `example_prompts[0]`, then `(text, config)` is what the remote inference
call receives.  (`example_prompts` is a non-empty literal list, so indexing
`[0]` is total; it is modelled with `headD`.) -/
def go (text : String) : String × AppConfig :=
  let text := if text = "" then example_prompts.headD "" else text
  (text, appConfig)

/-! ## `boltz1.py`: paths and errors -/

/-- Python exceptions that the boltz1 script can propagate. -/
inductive PyError where
  | typeError (msg : String)
  | fileNotFound (path : String)
  | valueError (msg : String)
  | calledProcessError (returncode : Int) (cmd : List String)
deriving DecidableEq, Repr

/-- The message of the `TypeError` raised by `Path(None)`. -/
def pathNoneMsg : String :=
  "argument should be a str or an os.PathLike object where __fspath__ returns a str, not <class \x27NoneType\x27>"

/-- Embedding of `Path(p).resolve()` for the paths used here: a relative path
is anchored at the current working directory (no `..` normalisation arises in
this program). -/
def pathResolve (cwd p : String) : String :=
  if List.isPrefixOf "/".data p.data then p else cwd ++ "/" ++ p

/-- Joining a directory path and a relative name, as `Path` rendering does. -/
def pathJoin (dir name : String) : String := dir ++ "/" ++ name

/-- The final path component, scanning left to right and resetting at `/`. -/
def lastComponentAux : List Char → List Char → List Char
  | [], acc => acc.reverse
  | c :: rest, acc =>
    if c = Char.ofNat 47 then lastComponentAux rest [] else lastComponentAux rest (c :: acc)

/-- Embedding of `Path(p).name`. -/
def baseName (p : String) : String := String.mk (lastComponentAux p.data [])

/-- Whether path `p` lies under directory `dir` (`dir ++ "/"` is a prefix). -/
def underDir (dir p : String) : Bool := List.isPrefixOf (dir ++ "/").data p.data

/-! ## `shlex.split`: POSIX-mode shell tokenisation

Embedding of Python `shlex.split` with the defaults used by `boltz1_inference`
(`posix=True`, `whitespace_split=True`, no comment stripping): whitespace
separates tokens; single quotes preserve everything literally; double quotes
preserve everything except that backslash escapes `"` and `\`; outside quotes
backslash escapes the next character; an unterminated quote or trailing
escape is a `ValueError`. -/

/-- The single-quote character. -/
def squoteChar : Char := Char.ofNat 39

/-- The double-quote character. -/
def dquoteChar : Char := Char.ofNat 34

/-- The backslash character. -/
def backslashChar : Char := Char.ofNat 92

/-- `shlex.whitespace`: space, tab, carriage return, newline. -/
def wsChars : List Char := [Char.ofNat 32, Char.ofNat 9, Char.ofNat 13, Char.ofNat 10]

/-- Lexer modes of the `shlex` state machine. -/
inductive ShMode where
  | out | word | squote | dquote | escOut | escDq
deriving DecidableEq, Repr

/-- One pass of the `shlex` state machine over the input characters.
`acc` is the token being accumulated, `started` records that a (possibly
empty) quoted token has begun, `toks` holds finished tokens in reverse. -/
def shlexRun : List Char → ShMode → List Char → Bool → List (List Char) →
    Except String (List (List Char))
  | [], mode, acc, _, toks =>
    match mode with
    | ShMode.out => Except.ok toks.reverse
    | ShMode.word => Except.ok (acc :: toks).reverse
    | ShMode.squote => Except.error "No closing quotation"
    | ShMode.dquote => Except.error "No closing quotation"
    | ShMode.escOut => Except.error "No escaped character"
    | ShMode.escDq => Except.error "No escaped character"
  | c :: rest, mode, acc, started, toks =>
    match mode with
    | ShMode.out =>
      if c ∈ wsChars then shlexRun rest ShMode.out [] false toks
      else if c = squoteChar then shlexRun rest ShMode.squote [] true toks
      else if c = dquoteChar then shlexRun rest ShMode.dquote [] true toks
      else if c = backslashChar then shlexRun rest ShMode.escOut [] true toks
      else shlexRun rest ShMode.word [c] true toks
    | ShMode.word =>
      if c ∈ wsChars then shlexRun rest ShMode.out [] false (acc :: toks)
      else if c = squoteChar then shlexRun rest ShMode.squote acc started toks
      else if c = dquoteChar then shlexRun rest ShMode.dquote acc started toks
      else if c = backslashChar then shlexRun rest ShMode.escOut acc started toks
      else shlexRun rest ShMode.word (acc ++ [c]) started toks
    | ShMode.squote =>
      if c = squoteChar then shlexRun rest ShMode.word acc started toks
      else shlexRun rest ShMode.squote (acc ++ [c]) started toks
    | ShMode.dquote =>
      if c = dquoteChar then shlexRun rest ShMode.word acc started toks
      else if c = backslashChar then shlexRun rest ShMode.escDq acc started toks
      else shlexRun rest ShMode.dquote (acc ++ [c]) started toks
    | ShMode.escOut => shlexRun rest ShMode.word (acc ++ [c]) started toks
    | ShMode.escDq =>
      if c = dquoteChar ∨ c = backslashChar then
        shlexRun rest ShMode.dquote (acc ++ [c]) started toks
      else shlexRun rest ShMode.dquote (acc ++ [backslashChar, c]) started toks

/-- Embedding of `shlex.split` as called in `boltz1_inference` (line 127). -/
def shlexSplit (s : String) : Except String (List String) :=
  (shlexRun s.data ShMode.out [] false []).map (List.map String.mk)

/-! ## Directory trees and `package_outputs`

A directory tree: files carry byte contents, directories carry a named entry
list.  The mutual shape keeps all recursion structural. -/

mutual
/-- A node of the local filesystem subtree that `package_outputs` walks. -/
inductive FSTree where
  | file : (content : List Nat) → FSTree
  | dir : (entries : FSEntries) → FSTree

/-- Named entries of a directory. -/
inductive FSEntries where
  | nil : FSEntries
  | cons : (name : String) → (child : FSTree) → (rest : FSEntries) → FSEntries
end

mutual
/-- Entries contributed by `os.walk` starting at `root` (path given as the
component list relative to the walked root): the files of the current
directory first, then each subdirectory in entry order, as `os.walk`'s
top-down traversal visits them.  Each file is paired with its content, the
path being what `os.path.relpath(os.path.join(root, file), output_dir)`
yields in components. -/
def walkZip (root : List String) : FSTree → List (List String × List Nat)
  | FSTree.file _ => []
  | FSTree.dir es => filesAt root es ++ walkDirs root es

/-- The `files` list `os.walk` reports for one directory, paired with contents. -/
def filesAt (root : List String) : FSEntries → List (List String × List Nat)
  | FSEntries.nil => []
  | FSEntries.cons n (FSTree.file c) rest => (root ++ [n], c) :: filesAt root rest
  | FSEntries.cons _ (FSTree.dir _) rest => filesAt root rest

/-- The recursive descent of `os.walk` into subdirectories, in entry order. -/
def walkDirs (root : List String) : FSEntries → List (List String × List Nat)
  | FSEntries.nil => []
  | FSEntries.cons n (FSTree.dir es) rest =>
      walkZip (root ++ [n]) (FSTree.dir es) ++ walkDirs root rest
  | FSEntries.cons _ (FSTree.file _) rest => walkDirs root rest
end

/-- Embedding of `package_outputs` (boltz1.py lines 184-198): walk the tree
with `os.walk`, and write one archive entry per file, named by its path
relative to the root (components joined by `/`), carrying the file's bytes.
The in-memory zip is modelled by its entry list. -/
def package_outputs (t : FSTree) : List (String × List Nat) :=
  (walkZip [] t).map fun e => (String.intercalate "/" e.1, e.2)

/-- Modelled from the spec: the set of files beneath a directory, each paired
with its path relative to the root, written as a direct structural recursion
(the reference enumeration that the walk-based archive is compared against). -/
def filesOfEntries : FSEntries → List (List String × List Nat)
  | FSEntries.nil => []
  | FSEntries.cons n (FSTree.file c) rest => ([n], c) :: filesOfEntries rest
  | FSEntries.cons n (FSTree.dir es) rest =>
      ((filesOfEntries es).map fun e => (n :: e.1, e.2)) ++ filesOfEntries rest

/-- Modelled from the spec: all files of a tree with their relative paths. -/
def filesOf : FSTree → List (List String × List Nat)
  | FSTree.file _ => []
  | FSTree.dir es => filesOfEntries es

/-! ## `boltz1_inference` and the folding entry point `main` -/

/-- `models_dir = Path("/models/boltz1")` (boltz1.py line 97), as rendered by
`str` when the command line is built. -/
def models_dir : String := "/models/boltz1"

/-- Embedding of `boltz1_inference` (lines 118-137): write the input YAML to
the fixed local path `input.yaml`, split `args` with `shlex.split`, invoke
`boltz predict` with the fixed argument vector plus the extra tokens, and
package the predictor's results directory.  `exitOf` gives the external
predictor's exit status for an argument vector; `results` is the directory
tree the predictor leaves behind.  The first component records the local file
write; the second is the returned archive (or the propagated error). -/
def boltz1_inference (boltz_input_yaml args : String)
    (exitOf : List String → Int) (results : FSTree) :
    (String × String) × Except PyError (List String × List (String × List Nat)) :=
  let written := ("input.yaml", boltz_input_yaml)
  match shlexSplit args with
  | Except.error m => (written, Except.error (PyError.valueError m))
  | Except.ok toks =>
    let argv := ["boltz", "predict", "input.yaml", "--cache", models_dir, "--use_msa_server"]
      ++ toks
    if exitOf argv = 0 then
      (written, Except.ok (argv, package_outputs results))
    else
      (written, Except.error (PyError.calledProcessError (exitOf argv) argv))

/-- Embedding of the local entrypoint `main` (boltz1.py lines 44-62).
`readF` models the local filesystem (`Path.read_text`), `infer` models the
value returned by the remote `boltz1_inference` call.  The result is the list
of printed messages together with either the propagated exception or the
`(path, bytes)` pair written by `output_path.write_bytes`.  Note the source
calls `Path(input).resolve()` *before* checking `input is None`, and never
uses `out_dir` when building `output_path`. -/
def boltz_main (cwd : String) (readF : String → Option String)
    (infer : String → List Nat) (force_download : Bool)
    (input : Option String) (args out_dir : String) :
    List String × Except PyError (String × List Nat) :=
  let prints := ["🧬 loading model remotely"]
  -- download_model.remote(force_download): modelled as a succeeding remote call
  match input with
  | none => (prints, Except.error (PyError.typeError pathNoneMsg))
  | some p =>
    let input1 := pathResolve cwd p
    let input2 := baseName input1
    -- the source's `if input is None:` check is unreachable for a None input,
    -- and for a non-None input its condition is false
    match readF input1 with
    | none => (prints, Except.error (PyError.fileNotFound input1))
    | some input_yaml =>
      let prints := prints ++ ["🧬 running boltz with input from " ++ p]
      let output := infer input_yaml
      let output_path := "boltz_" ++ input2 ++ "_result.zip"
      let prints := prints ++ ["🧬 writing output to " ++ output_path, "DONE! 🎉"]
      (prints, Except.ok (pathJoin cwd output_path, output))

/-! # Helper lemmas -/

/-- A digit character decodes back to its digit. -/
theorem digitVal_digitChar {d : Nat} (h : d < 10) : digitVal (digitChar d) = d := by
  interval_cases d <;> decide

/-- Digit characters are not the underscore. -/
theorem digitChar_ne_underscore {d : Nat} (h : d < 10) : digitChar d ≠ underscoreChar := by
  interval_cases d <;> decide

/-- Appending one character multiplies the accumulated value by ten. -/
theorem digitsVal_append_singleton (l : List Char) (c : Char) :
    digitsVal (l ++ [c]) = 10 * digitsVal l + digitVal c := by
  simp [digitsVal, List.foldl_append]

/-- `digitsVal` is a left inverse of `natDigitsAux` given enough fuel. -/
theorem digitsVal_natDigitsAux :
    ∀ fuel n : Nat, n < fuel → digitsVal (natDigitsAux fuel n) = n := by
  intro fuel
  induction fuel with
  | zero => intro n h; omega
  | succ f ih =>
    intro n h
    by_cases h10 : n < 10
    · simp [natDigitsAux, h10, digitsVal, digitVal_digitChar h10]
    · have hdiv : n / 10 < n := Nat.div_lt_self (by omega) (by omega)
      have hf : n / 10 < f := by omega
      simp only [natDigitsAux, if_neg h10, digitsVal_append_singleton, ih _ hf,
        digitVal_digitChar (Nat.mod_lt n (by omega))]
      omega

/-- `digitsVal` is a left inverse of `natDigits`. -/
theorem digitsVal_natDigits (n : Nat) : digitsVal (natDigits n) = n :=
  digitsVal_natDigitsAux (n + 1) n (Nat.lt_succ_self n)

/-- Decimal digit strings are unique. -/
theorem natDigits_inj {m n : Nat} (h : natDigits m = natDigits n) : m = n := by
  have := congrArg digitsVal h
  rwa [digitsVal_natDigits, digitsVal_natDigits] at this

/-- No character of a decimal digit string is the underscore. -/
theorem natDigitsAux_ne_underscore :
    ∀ (fuel n : Nat), ∀ c ∈ natDigitsAux fuel n, c ≠ underscoreChar := by
  intro fuel
  induction fuel with
  | zero => intro n c hc; simp [natDigitsAux] at hc
  | succ f ih =>
    intro n c hc
    by_cases h10 : n < 10
    · simp [natDigitsAux, h10] at hc
      subst hc
      exact digitChar_ne_underscore h10
    · simp only [natDigitsAux, if_neg h10, List.mem_append, List.mem_singleton] at hc
      rcases hc with hc | hc
      · exact ih _ c hc
      · subst hc
        exact digitChar_ne_underscore (Nat.mod_lt n (by omega))

/-- No character of `natDigits n` is the underscore. -/
theorem natDigits_ne_underscore (n : Nat) : ∀ c ∈ natDigits n, c ≠ underscoreChar :=
  natDigitsAux_ne_underscore (n + 1) n

/-- `(natRepr n).data` is `natDigits n`. -/
theorem natRepr_data (n : Nat) : (natRepr n).data = natDigits n := rfl

/-- Cancellation around a separator that starts with a character occurring in
neither left part: the left parts and the right parts agree separately. -/
theorem sep_cancel (c : Char) (sep : List Char) :
    ∀ a1 a2 b1 b2 : List Char, (∀ x ∈ a1, x ≠ c) → (∀ x ∈ a2, x ≠ c) →
      a1 ++ c :: (sep ++ b1) = a2 ++ c :: (sep ++ b2) → a1 = a2 ∧ b1 = b2 := by
  intro a1
  induction a1 with
  | nil =>
    intro a2 b1 b2 _ h2 h
    cases a2 with
    | nil =>
      simp only [List.nil_append, List.cons.injEq] at h
      exact ⟨rfl, List.append_cancel_left h.2⟩
    | cons y a2 =>
      simp only [List.nil_append, List.cons_append, List.cons.injEq] at h
      exact absurd h.1.symm (h2 y (List.mem_cons_self y a2))
  | cons x a1 ih =>
    intro a2 b1 b2 h1 h2 h
    cases a2 with
    | nil =>
      simp only [List.nil_append, List.cons_append, List.cons.injEq] at h
      exact absurd h.1 (h1 x (List.mem_cons_self x a1))
    | cons y a2 =>
      simp only [List.cons_append, List.cons.injEq] at h
      obtain ⟨hxy, htail⟩ := h
      obtain ⟨ha, hb⟩ := ih a2 b1 b2 (fun z hz => h1 z (List.mem_cons_of_mem x hz))
        (fun z hz => h2 z (List.mem_cons_of_mem y hz)) htail
      exact ⟨by rw [hxy, ha], hb⟩

/-- The character data of a derived sweep output directory, in separator form. -/
theorem sweepOutputDir_data (s r : Nat) :
    (sweepOutputDir s r).data =
      "/model/steps_".data ++
        (natDigits s ++ underscoreChar :: ("rank_".data ++ natDigits r)) := by
  show (MODEL_DIR ++ "/" ++ ("steps_" ++ natRepr s ++ "_rank_" ++ natRepr r)).data = _
  have hpre : (MODEL_DIR ++ "/" : String) = "/model/" := rfl
  rw [hpre, String.data_append, String.data_append, String.data_append,
    String.data_append, natRepr_data, natRepr_data]
  have hu : ("_rank_" : String).data = underscoreChar :: ("rank_" : String).data := by decide
  rw [hu]
  simp

/-- The derived sweep output directory determines the step count and rank. -/
theorem sweepOutputDir_inj {s1 r1 s2 r2 : Nat}
    (h : sweepOutputDir s1 r1 = sweepOutputDir s2 r2) : s1 = s2 ∧ r1 = r2 := by
  have hd := congrArg String.data h
  rw [sweepOutputDir_data, sweepOutputDir_data] at hd
  have hd2 := List.append_cancel_left hd
  obtain ⟨hs, hr⟩ := sep_cancel underscoreChar ("rank_" : String).data
    (natDigits s1) (natDigits s2) (natDigits r1) (natDigits r2)
    (natDigits_ne_underscore s1) (natDigits_ne_underscore s2) hd2
  exact ⟨natDigits_inj hs, natDigits_inj hr⟩

/-- `getD` through an offset equal to the left list's length. -/
theorem getD_append_offset {α : Type} (l1 l2 : List α) (n : Nat) (d : α) :
    (l1 ++ l2).getD (l1.length + n) d = l2.getD n d := by
  induction l1 with
  | nil => simp
  | cons a l ih => simpa [Nat.succ_add] using ih

/-- `getD` through `map`, at an in-range index. -/
theorem getD_map_range {α β : Type} (B : List α) (g : α → β) (d : β) (b0 : α) :
    ∀ j, j < B.length → (B.map g).getD j d = g (B.getD j b0) := by
  induction B with
  | nil => intro j hj; simp at hj
  | cons b B ih =>
    intro j hj
    cases j with
    | zero => simp
    | succ j => simpa using ih j (by simpa using hj)

/-- Length of the cartesian-product enumeration. -/
theorem flatMap_map_length {α β γ : Type} (A : List α) (B : List β) (f : α → β → γ) :
    (A.flatMap fun a => B.map (f a)).length = A.length * B.length := by
  induction A with
  | nil => simp
  | cons a A ih =>
    simp only [List.flatMap_cons, List.length_append, List.length_map, ih, List.length_cons]
    ring

/-- Element of the cartesian-product enumeration at row-major position
`i * B.length + j`. -/
theorem flatMap_map_getD {α β γ : Type} (B : List β) (f : α → β → γ)
    (a0 : α) (b0 : β) (d : γ) :
    ∀ (A : List α) (i j : Nat), i < A.length → j < B.length →
      (A.flatMap fun a => B.map (f a)).getD (i * B.length + j) d
        = f (A.getD i a0) (B.getD j b0) := by
  intro A
  induction A with
  | nil => intro i j hi hj; simp at hi
  | cons a A ih =>
    intro i j hi hj
    cases i with
    | zero =>
      simp only [List.flatMap_cons, Nat.zero_mul, Nat.zero_add, List.getD_cons_zero]
      rw [List.getD_append _ _ _ _ (by simpa using hj)]
      exact getD_map_range B (f a) d b0 j hj
    | succ i =>
      have hidx : (i + 1) * B.length + j = (B.map (f a)).length + (i * B.length + j) := by
        simp [List.length_map, Nat.succ_mul]
        ring
      simp only [List.flatMap_cons, hidx, List.getD_cons_succ]
      rw [getD_append_offset]
      exact ih i j (by simpa using hi) hj

/-! # Claim theorems -/

/-- C1: evaluation of `_exec_subprocess` at the failing input.  A child exit
status of 0 returns normally, as claimed.  But for a child exit status of 2,
the raised `CalledProcessError` carries return code 1 — the numeric value of
the boolean `exitcode := process.wait() != 0` — not the claimed exact exit
code 2 (the walrus binds the comparison's result, not the status). -/
theorem execSubprocess_walrus_eval :
    execSubprocess ["accelerate", "launch"] 0 = Except.ok () ∧
    execSubprocess ["accelerate", "launch"] 2 =
      Except.error { returncode := 1, cmd := "accelerate\nlaunch" } ∧
    (1 : Int) ≠ 2 :=
  ⟨rfl, rfl, by decide⟩

/-- C2: invoking the folding entry point `main` with no input path does not
produce the user-facing message `Provide input yaml by --input`; instead
`Path(input).resolve()` raises a `TypeError` first, so the only text printed
before the crash is the initial loading message. -/
theorem boltz_main_missing_input_crashes (cwd : String) (readF : String → Option String)
    (infer : String → List Nat) (force_download : Bool) (args out_dir : String) :
    boltz_main cwd readF infer force_download none args out_dir =
      (["🧬 loading model remotely"], Except.error (PyError.typeError pathNoneMsg)) ∧
    "Provide input yaml by --input" ∉
      (boltz_main cwd readF infer force_download none args out_dir).1 := by
  constructor
  · rfl
  · show "Provide input yaml by --input" ∉ (["🧬 loading model remotely"] : List String)
    decide

/-- C3, counterexample: with output directory `/data`, a resolved input
`/tmp/test.yaml` and working directory `/home/user`, the result archive is
written to `/home/user/boltz_test.yaml_result.zip` — a path that is not under
the caller-supplied `out_dir` at all. -/
theorem boltz_main_out_dir_counterexample :
    (boltz_main "/home/user" (fun _ => some "sequences") (fun _ => [80, 75]) false
        (some "/tmp/test.yaml") "" "/data").2 =
      Except.ok ("/home/user/boltz_test.yaml_result.zip", [80, 75]) ∧
    underDir "/data" "/home/user/boltz_test.yaml_result.zip" = false :=
  ⟨rfl, rfl⟩

/-- C3, amended: for every invocation of `main` with a readable input path,
the result archive is written to `boltz_<input file name>_result.zip` in the
current working directory; the filename is computed from the input file's
name, and the `out_dir` argument does not influence the destination (it is
never used). -/
theorem boltz_main_writes_computed_filename (cwd : String) (readF : String → Option String)
    (infer : String → List Nat) (force_download : Bool) (p args out_dir : String)
    (input_yaml : String) (h : readF (pathResolve cwd p) = some input_yaml) :
    (boltz_main cwd readF infer force_download (some p) args out_dir).2 =
      Except.ok (pathJoin cwd ("boltz_" ++ baseName (pathResolve cwd p) ++ "_result.zip"),
        infer input_yaml) := by
  simp only [boltz_main, h]

/-- C3 witness: a concrete invocation, evaluated. -/
theorem boltz_main_writes_computed_filename_witness :
    (boltz_main "/home/user" (fun _ => some "sequences") (fun _ => [80, 75]) false
        (some "/tmp/test.yaml") "" "/data").2 =
      Except.ok (pathJoin "/home/user"
        ("boltz_" ++ baseName (pathResolve "/home/user" "/tmp/test.yaml") ++ "_result.zip"),
        (fun _ => [80, 75]) "sequences") :=
  boltz_main_writes_computed_filename "/home/user" (fun _ => some "sequences")
    (fun _ => [80, 75]) false "/tmp/test.yaml" "" "/data" "sequences" rfl

/-- C6: the extra-arguments string is split by `shlex` rules:
`"--sampling_steps 10"` yields exactly the two tokens `--sampling_steps` and
`10`, a double-quoted substring stays one token, and `boltz1_inference`
appends exactly those tokens to its fixed argument vector. -/
theorem shlex_split_tokens :
    shlexSplit "--sampling_steps 10" = Except.ok ["--sampling_steps", "10"] ∧
    shlexSplit "--msa \"my file.a3m\"" = Except.ok ["--msa", "my file.a3m"] ∧
    (boltz1_inference "yaml" "--sampling_steps 10" (fun _ => 0) (FSTree.dir FSEntries.nil)).2 =
      Except.ok (["boltz", "predict", "input.yaml", "--cache", "/models/boltz1",
        "--use_msa_server", "--sampling_steps", "10"], []) :=
  ⟨rfl, rfl, rfl⟩

/-- C7: `boltz1_inference` writes the input YAML to the fixed path
`input.yaml`, invokes the predictor with exactly
`boltz predict input.yaml --cache /models/boltz1 --use_msa_server` followed
by the shell-split extra tokens, and on non-zero exit the
`CalledProcessError` (carrying that argument vector) propagates — there is no
retry and no partial result. -/
theorem boltz1_inference_contract (boltz_input_yaml args : String)
    (exitOf : List String → Int) (results : FSTree) (toks : List String)
    (h : shlexSplit args = Except.ok toks) :
    (boltz1_inference boltz_input_yaml args exitOf results).1 =
      ("input.yaml", boltz_input_yaml) ∧
    (boltz1_inference boltz_input_yaml args exitOf results).2 =
      (if exitOf (["boltz", "predict", "input.yaml", "--cache", models_dir,
            "--use_msa_server"] ++ toks) = 0
       then Except.ok (["boltz", "predict", "input.yaml", "--cache", models_dir,
            "--use_msa_server"] ++ toks, package_outputs results)
       else Except.error (PyError.calledProcessError
            (exitOf (["boltz", "predict", "input.yaml", "--cache", models_dir,
              "--use_msa_server"] ++ toks))
            (["boltz", "predict", "input.yaml", "--cache", models_dir,
              "--use_msa_server"] ++ toks))) := by
  by_cases hc : exitOf (["boltz", "predict", "input.yaml", "--cache", models_dir,
      "--use_msa_server"] ++ toks) = 0
  · simp only [List.cons_append, List.nil_append] at hc
    simp [boltz1_inference, h, hc]
  · simp only [List.cons_append, List.nil_append] at hc
    simp [boltz1_inference, h, hc]

/-- C7 witness: a concrete invocation with a failing predictor (exit 7)
propagates the error carrying the full argument vector. -/
theorem boltz1_inference_contract_witness :
    (boltz1_inference "yaml" "--sampling_steps 10" (fun _ => 7)
        (FSTree.dir FSEntries.nil)).1 = ("input.yaml", "yaml") ∧
    (boltz1_inference "yaml" "--sampling_steps 10" (fun _ => 7)
        (FSTree.dir FSEntries.nil)).2 =
      Except.error (PyError.calledProcessError 7
        (["boltz", "predict", "input.yaml", "--cache", "/models/boltz1",
          "--use_msa_server", "--sampling_steps", "10"])) :=
  boltz1_inference_contract "yaml" "--sampling_steps 10" (fun _ => 7)
    (FSTree.dir FSEntries.nil) ["--sampling_steps", "10"] rfl

/-- C8: for every record produced by `generate_sweep_configs`, the path the
sweep driver's evaluation step re-derives
(`MODEL_DIR` joined with `steps_{max_train_steps}_rank_{rank}`, via
`Model.load_model`) equals the record's stored `output_dir`
(`Path(MODEL_DIR) / f"steps_{steps}_rank_{rank}"`): the two derivations of
the artifact name agree. -/
theorem sweep_dir_agreement (sc : SweepConfig) (r : SweepRecord)
    (h : r ∈ generate_sweep_configs sc) :
    modelLoadPath (evalLookupDir r) = r.output_dir := by
  simp only [generate_sweep_configs, List.mem_flatMap, List.mem_map] at h
  obtain ⟨steps, _, rank, _, rfl⟩ := h
  rfl

/-- C8 witness: the first generated record of the repository's own sweep. -/
theorem sweep_dir_agreement_witness :
    modelLoadPath (evalLookupDir (mkSweepRecord defaultSweepConfig 2000 8)) =
      (mkSweepRecord defaultSweepConfig 2000 8).output_dir :=
  sweep_dir_agreement defaultSweepConfig (mkSweepRecord defaultSweepConfig 2000 8)
    (by decide)

/-- C9: when the training subprocess exits 0, `train` performs exactly the
subprocess run followed by the volume commit (the commit precedes the
return), and returns the configuration record unchanged. -/
theorem train_success_commits_and_returns (config : SweepRecord) (status : Int)
    (h : status = 0) :
    train config status =
      ([TrainEvent.subproc (trainCmd config), TrainEvent.volumeCommit],
        Except.ok config) := by
  subst h
  rfl

/-- C9 witness: a concrete configuration record, evaluated at exit status 0. -/
theorem train_success_commits_and_returns_witness :
    train (mkSweepRecord defaultSweepConfig 2000 8) 0 =
      ([TrainEvent.subproc (trainCmd (mkSweepRecord defaultSweepConfig 2000 8)),
        TrainEvent.volumeCommit],
        Except.ok (mkSweepRecord defaultSweepConfig 2000 8)) :=
  train_success_commits_and_returns (mkSweepRecord defaultSweepConfig 2000 8) 0 rfl

/-- C10: the web handler `go` replaces an empty (or absent, since the Python
default is `""`) prompt by the first example prompt before calling inference,
and passes every non-empty prompt through unchanged. -/
theorem go_prompt_substitution :
    (go "").1 = example_prompts.headD "" ∧
    (go "").1 = instance_phrase ∧
    ∀ text : String, text ≠ "" → (go text).1 = text := by
  refine ⟨rfl, rfl, fun text ht => ?_⟩
  simp [go, ht]

/-- C10 witness: a concrete non-empty prompt passes through unchanged. -/
theorem go_prompt_substitution_witness :
    (go "Heroicon riding a bicycle").1 = "Heroicon riding a bicycle" :=
  go_prompt_substitution.2.2 "Heroicon riding a bicycle" (by decide)

/-- C4, counterexample: the claim quantifies over every sweep configuration,
but with a duplicated step-count value (`train_steps = [2000, 2000]`,
`ranks = [8]`) the generator returns N×M records whose derived output paths
are not unique — two records share `/model/steps_2000_rank_8`. -/
theorem generate_sweep_configs_dup_counterexample :
    ¬ (((generate_sweep_configs
        { defaultSweepConfig with train_steps := [2000, 2000] }).map
          fun r => r.output_dir).Nodup) := by
  decide

/-- C4, amended: for every sweep configuration whose `train_steps` and
`ranks` lists are duplicate-free (as the repository's are),
`generate_sweep_configs` returns exactly N×M records, the derived
`output_dir` paths are pairwise distinct, and the record at row-major
position `i * M + j` has `max_train_steps = train_steps[i]`,
`rank = ranks[j]`, every remaining scalar field copied unchanged from the
sweep configuration, and the `output_dir` derived from exactly those two
list elements. -/
theorem generate_sweep_configs_spec (sc : SweepConfig)
    (hA : sc.train_steps.Nodup) (hB : sc.ranks.Nodup)
    (i j : Nat) (hi : i < sc.train_steps.length) (hj : j < sc.ranks.length) :
    (generate_sweep_configs sc).length = sc.train_steps.length * sc.ranks.length ∧
    ((generate_sweep_configs sc).map fun r => r.output_dir).Nodup ∧
    ((generate_sweep_configs sc).getD (i * sc.ranks.length + j)
        (mkSweepRecord sc 0 0)).max_train_steps = sc.train_steps.getD i 0 ∧
    ((generate_sweep_configs sc).getD (i * sc.ranks.length + j)
        (mkSweepRecord sc 0 0)).rank = sc.ranks.getD j 0 ∧
    ((generate_sweep_configs sc).getD (i * sc.ranks.length + j)
        (mkSweepRecord sc 0 0)).model_name = sc.model_name ∧
    ((generate_sweep_configs sc).getD (i * sc.ranks.length + j)
        (mkSweepRecord sc 0 0)).instance_prompt = sc.instance_prompt ∧
    ((generate_sweep_configs sc).getD (i * sc.ranks.length + j)
        (mkSweepRecord sc 0 0)).dataset_name = sc.dataset_name ∧
    ((generate_sweep_configs sc).getD (i * sc.ranks.length + j)
        (mkSweepRecord sc 0 0)).caption_column = sc.caption_column ∧
    ((generate_sweep_configs sc).getD (i * sc.ranks.length + j)
        (mkSweepRecord sc 0 0)).resolution = sc.resolution ∧
    ((generate_sweep_configs sc).getD (i * sc.ranks.length + j)
        (mkSweepRecord sc 0 0)).train_batch_size = sc.train_batch_size ∧
    ((generate_sweep_configs sc).getD (i * sc.ranks.length + j)
        (mkSweepRecord sc 0 0)).gradient_accumulation_steps
      = sc.gradient_accumulation_steps ∧
    ((generate_sweep_configs sc).getD (i * sc.ranks.length + j)
        (mkSweepRecord sc 0 0)).lr_scheduler = sc.lr_scheduler ∧
    ((generate_sweep_configs sc).getD (i * sc.ranks.length + j)
        (mkSweepRecord sc 0 0)).lr_warmup_steps = sc.lr_warmup_steps ∧
    ((generate_sweep_configs sc).getD (i * sc.ranks.length + j)
        (mkSweepRecord sc 0 0)).checkpointing_steps = sc.checkpointing_steps ∧
    ((generate_sweep_configs sc).getD (i * sc.ranks.length + j)
        (mkSweepRecord sc 0 0)).seed = sc.seed ∧
    ((generate_sweep_configs sc).getD (i * sc.ranks.length + j)
        (mkSweepRecord sc 0 0)).output_dir
      = sweepOutputDir (sc.train_steps.getD i 0) (sc.ranks.getD j 0) := by
  have hrec : (generate_sweep_configs sc).getD (i * sc.ranks.length + j)
      (mkSweepRecord sc 0 0)
      = mkSweepRecord sc (sc.train_steps.getD i 0) (sc.ranks.getD j 0) :=
    flatMap_map_getD sc.ranks (fun s r => mkSweepRecord sc s r) 0 0
      (mkSweepRecord sc 0 0) sc.train_steps i j hi hj
  have hnd : ((generate_sweep_configs sc).map fun r => r.output_dir).Nodup := by
    have hmap : ((generate_sweep_configs sc).map fun r => r.output_dir)
        = sc.train_steps.flatMap fun steps =>
            sc.ranks.map fun rank => sweepOutputDir steps rank := by
      simp only [generate_sweep_configs, List.map_flatMap, List.map_map]
      rfl
    rw [hmap]
    refine List.nodup_flatMap.mpr ⟨fun s _ => ?_, ?_⟩
    · exact hB.map fun r1 r2 hr => (sweepOutputDir_inj hr).2
    · refine hA.imp ?_
      intro s1 s2 hne x hx1 hx2
      simp only [List.mem_map] at hx1 hx2
      obtain ⟨r1, _, h1⟩ := hx1
      obtain ⟨r2, _, h2⟩ := hx2
      exact hne ((sweepOutputDir_inj (h1.trans h2.symm)).1)
  refine ⟨?_, hnd, ?_, ?_, ?_, ?_, ?_, ?_, ?_, ?_, ?_, ?_, ?_, ?_, ?_, ?_⟩
  · exact flatMap_map_length sc.train_steps sc.ranks fun s r => mkSweepRecord sc s r
  all_goals rw [hrec]
  all_goals rfl

/-- C4 witness: the repository's own sweep (`train_steps = [2000, 3000, 4000]`,
`ranks = [8]`), evaluated at row-major position `i = 1`, `j = 0`. -/
theorem generate_sweep_configs_spec_witness :
    (generate_sweep_configs defaultSweepConfig).length = 3 ∧
    ((generate_sweep_configs defaultSweepConfig).map fun r => r.output_dir).Nodup ∧
    ((generate_sweep_configs defaultSweepConfig).getD 1
        (mkSweepRecord defaultSweepConfig 0 0)).max_train_steps = 3000 ∧
    ((generate_sweep_configs defaultSweepConfig).getD 1
        (mkSweepRecord defaultSweepConfig 0 0)).rank = 8 ∧
    ((generate_sweep_configs defaultSweepConfig).getD 1
        (mkSweepRecord defaultSweepConfig 0 0)).model_name
      = "black-forest-labs/FLUX.1-dev" ∧
    ((generate_sweep_configs defaultSweepConfig).getD 1
        (mkSweepRecord defaultSweepConfig 0 0)).instance_prompt
      = "an HCON, in the style of TOK" ∧
    ((generate_sweep_configs defaultSweepConfig).getD 1
        (mkSweepRecord defaultSweepConfig 0 0)).dataset_name
      = "yirenlu/heroicons-subset-25-images" ∧
    ((generate_sweep_configs defaultSweepConfig).getD 1
        (mkSweepRecord defaultSweepConfig 0 0)).caption_column = "text" ∧
    ((generate_sweep_configs defaultSweepConfig).getD 1
        (mkSweepRecord defaultSweepConfig 0 0)).resolution = 512 ∧
    ((generate_sweep_configs defaultSweepConfig).getD 1
        (mkSweepRecord defaultSweepConfig 0 0)).train_batch_size = 1 ∧
    ((generate_sweep_configs defaultSweepConfig).getD 1
        (mkSweepRecord defaultSweepConfig 0 0)).gradient_accumulation_steps = 1 ∧
    ((generate_sweep_configs defaultSweepConfig).getD 1
        (mkSweepRecord defaultSweepConfig 0 0)).lr_scheduler = "constant" ∧
    ((generate_sweep_configs defaultSweepConfig).getD 1
        (mkSweepRecord defaultSweepConfig 0 0)).lr_warmup_steps = 0 ∧
    ((generate_sweep_configs defaultSweepConfig).getD 1
        (mkSweepRecord defaultSweepConfig 0 0)).checkpointing_steps = 1000 ∧
    ((generate_sweep_configs defaultSweepConfig).getD 1
        (mkSweepRecord defaultSweepConfig 0 0)).seed = 0 ∧
    ((generate_sweep_configs defaultSweepConfig).getD 1
        (mkSweepRecord defaultSweepConfig 0 0)).output_dir = sweepOutputDir 3000 8 :=
  generate_sweep_configs_spec defaultSweepConfig (by decide) (by decide) 1 0
    (by decide) (by decide)

/-- The entries the `os.walk`-based traversal contributes below one directory
are a permutation of the reference enumeration of that directory's files,
each path prefixed by the walk root.  (Fuel-based induction over the tree
size; `os.walk` lists a directory's files before descending, the reference
enumeration interleaves them, hence permutation rather than equality.) -/
theorem walk_entries_perm :
    ∀ (fuel : Nat) (es : FSEntries) (root : List String), sizeOf es < fuel →
      (filesAt root es ++ walkDirs root es).Perm
        ((filesOfEntries es).map fun e => (root ++ e.1, e.2)) := by
  intro fuel
  induction fuel with
  | zero => intro es root h; omega
  | succ f ih =>
    intro es root h
    match es with
    | FSEntries.nil => exact List.Perm.nil
    | FSEntries.cons n (FSTree.file c) rest =>
      have hrest : sizeOf rest < f := by
        simp only [FSEntries.cons.sizeOf_spec, FSTree.file.sizeOf_spec] at h
        omega
      show ((root ++ [n], c) :: (filesAt root rest ++ walkDirs root rest)).Perm
        ((root ++ [n], c) :: ((filesOfEntries rest).map fun e => (root ++ e.1, e.2)))
      exact List.Perm.cons _ (ih rest root hrest)
    | FSEntries.cons n (FSTree.dir es2) rest =>
      have hsz : sizeOf es2 < f ∧ sizeOf rest < f := by
        simp only [FSEntries.cons.sizeOf_spec, FSTree.dir.sizeOf_spec] at h
        omega
      have hC := ih es2 (root ++ [n]) hsz.1
      have hXY := ih rest root hsz.2
      have hmapeq : (((filesOfEntries es2).map fun e => (n :: e.1, e.2)).map
            fun e => (root ++ e.1, e.2))
          = (filesOfEntries es2).map fun e => ((root ++ [n]) ++ e.1, e.2) := by
        rw [List.map_map]
        refine List.map_congr_left fun e _ => ?_
        show (root ++ n :: e.1, e.2) = ((root ++ [n]) ++ e.1, e.2)
        rw [List.append_cons]
      show (filesAt root rest ++
          ((filesAt (root ++ [n]) es2 ++ walkDirs (root ++ [n]) es2) ++
            walkDirs root rest)).Perm
        ((((filesOfEntries es2).map fun e => (n :: e.1, e.2)) ++
            filesOfEntries rest).map fun e => (root ++ e.1, e.2))
      rw [List.map_append, hmapeq]
      refine List.Perm.trans List.perm_append_comm ?_
      rw [List.append_assoc]
      refine List.Perm.trans (List.Perm.append_left _ List.perm_append_comm) ?_
      exact List.Perm.append hC hXY

/-- C5: the archive built by `package_outputs` has exactly one entry per file
of the directory tree (at any depth, regardless of extension), each entry
named by the file's path relative to the root and carrying the file's exact
bytes: the entry list is a permutation of the reference file enumeration, so
unzipping reproduces the tree. -/
theorem package_outputs_spec (t : FSTree) :
    (package_outputs t).Perm
      ((filesOf t).map fun e => (String.intercalate "/" e.1, e.2)) ∧
    (package_outputs t).length = (filesOf t).length := by
  have hperm : (walkZip [] t).Perm (filesOf t) := by
    cases t with
    | file c => simp [walkZip, filesOf]
    | dir es =>
      have h := walk_entries_perm (sizeOf es + 1) es [] (Nat.lt_succ_self _)
      have hid : ((filesOfEntries es).map fun e => (([] : List String) ++ e.1, e.2))
          = filesOfEntries es := by simp
      rw [hid] at h
      exact h
  exact ⟨hperm.map _, by
    simp only [package_outputs, List.length_map]
    exact hperm.length_eq⟩
